import Mathlib

/-!
Shallow embedding of the IBP dashboard application (src/app.py) and proofs
about its forecast engine, KPI pipeline and page router.

Numbers: the Python code computes with floats (pandas / numpy); we model the
arithmetic exactly over `ℚ` (decimal literals such as 1.65, 1.1, 0.9 are taken
at their exact decimal value, and the one genuinely irrational operation, the
square root inside the sample standard deviation, is modelled with `Real.sqrt`).
Pandas sample standard deviation over fewer than two points is NaN; NaN-valued
results are modelled with `Option` (`none` = NaN).

Fallible Python evaluation (IndexError from `rows[0]` / `iloc[0]`, NameError
from a name left undefined by a failed import, ZeroDivisionError) is modelled
with `Except PyErr`.
-/

namespace IBP

/-- Python exceptions that the embedded code can raise. -/
inductive PyErr where
  | indexError
  | nameError
  | zeroDivisionError
deriving DecidableEq, Repr

/-- A row of the `products` table: columns product_code (primary key),
product_name, opening_inventory, monthly_capacity, unit_cost. -/
structure Product where
  product_code : String
  product_name : String
  opening_inventory : ℚ
  monthly_capacity : ℚ
  unit_cost : ℚ
deriving DecidableEq, Repr

/-- A row of the `historical_sales` table: columns product_code (foreign key),
month, qty. -/
structure SalesRecord where
  product_code : String
  month : String
  qty : ℚ
deriving DecidableEq, Repr

/-- The database contents visible to the app: the two tables it queries. -/
structure DB where
  products : List Product
  historical_sales : List SalesRecord

/-- Embeds `load_products`: SELECT * FROM products ORDER BY product_code.
The ORDER BY is modelled by a stable sort on product_code. -/
def load_products (db : DB) : List Product :=
  db.products.mergeSort (fun a b => decide (a.product_code ≤ b.product_code))

/-- Embeds `load_history`: SELECT * FROM historical_sales WHERE product_code=%s
ORDER BY month. -/
def load_history (db : DB) (product : String) : List SalesRecord :=
  (db.historical_sales.filter (fun r => r.product_code == product)).mergeSort
    (fun a b => decide (a.month ≤ b.month))

/-- Embeds pandas `Series.mean()`: sum divided by count. -/
def mean (l : List ℚ) : ℚ := l.sum / (l.length : ℚ)

/-- Modelled from the spec (section 4.4 and section 8): the arithmetic mean of
a quantity series, written from the words of the spec for comparison with the
mean the code computes. -/
def specArithmeticMean (l : List ℚ) : ℚ := l.sum / (l.length : ℚ)

/-- Embeds the variance under pandas `Series.std()` (ddof = 1, sample
variance): sum of squared deviations over n - 1.  For n < 2 pandas yields NaN,
modelled as `none`. -/
def sampleVar (l : List ℚ) : Option ℚ :=
  if l.length ≤ 1 then none
  else some (((l.map (fun x => (x - mean l) ^ 2)).sum) / ((l.length : ℚ) - 1))

/-- Embeds pandas `Series.std()` (ddof = 1): square root of the sample
variance; NaN (`none`) for series shorter than two points. -/
noncomputable def sampleStd (l : List ℚ) : Option ℝ :=
  (sampleVar l).map (fun v => Real.sqrt (v : ℝ))

/-- Embeds line 161 of src/app.py: safety = std * 1.65.  NaN propagates. -/
noncomputable def safetyStock (l : List ℚ) : Option ℝ :=
  (sampleStd l).map (fun s => s * 1.65)

/-- Embeds Python round(x, 1), modelled as exact decimal rounding. -/
def pyRound1 (x : ℚ) : ℚ := ((round (x * 10) : ℤ) : ℚ) / 10

/-- Embeds Python round(x, 2), modelled as exact decimal rounding. -/
def pyRound2 (x : ℚ) : ℚ := ((round (x * 100) : ℤ) : ℚ) / 100

/-- Embeds Python round(x, 1) on a real value. -/
noncomputable def pyRound1R (x : ℝ) : ℝ := ((round (x * 10) : ℤ) : ℝ) / 10

/-- Embeds line 164 of src/app.py: end_inv = inv + prod - avg with
prod = min(avg, monthly_capacity). -/
def endingInventory (p : Product) (qtys : List ℚ) : ℚ :=
  p.opening_inventory + min (mean qtys) p.monthly_capacity - mean qtys

/-- Embeds line 165 of src/app.py: turns = avg * 12 / max(inv, 1). -/
def inventoryTurns (p : Product) (qtys : List ℚ) : ℚ :=
  mean qtys * 12 / max p.opening_inventory 1

/-- Division as Python raises it: error on a zero denominator. -/
def divE (a b : ℚ) : Except PyErr ℚ :=
  if b = 0 then .error .zeroDivisionError else .ok (a / b)

/-- Line 165 of src/app.py with the division made explicitly fallible, to
state that the max(inv, 1) floor rules the division error out. -/
def inventoryTurnsE (p : Product) (qtys : List ℚ) : Except PyErr ℚ :=
  divE (mean qtys * 12) (max p.opening_inventory 1)

/-- Embeds line 191 and line 221 of src/app.py: inventory value =
opening_inventory * unit_cost. -/
def inventoryValue (p : Product) : ℚ :=
  p.opening_inventory * p.unit_cost

/-- Numpy float64 machine epsilon, the denominator floor used by sklearn
mean_absolute_percentage_error. -/
def skEps : ℚ := 1 / 2 ^ 52

/-- Embeds sklearn mean_absolute_percentage_error(yTrue, yPred):
mean of abs(yTrue - yPred) / max(abs(yTrue), eps). -/
def sk_mape (yTrue yPred : List ℚ) : ℚ :=
  mean ((yTrue.zip yPred).map (fun ab => |ab.1 - ab.2| / max |ab.1| skEps))

/-- One row of the DataFrame built by run_forecast: columns
Model, Forecast, MAPE. -/
structure ForecastRow where
  model : String
  forecast : ℚ
  mape : ℚ
deriving DecidableEq, Repr

/-- Availability flags and fit oracles for the three external model
libraries.  The flags embed HAS_SES / HAS_RF / HAS_XGB (set by the
try-import blocks at the top of src/app.py).  Each oracle stands for an
external library fit: given the series it returns the in-sample
fitted/predicted values together with the one-step-ahead point forecast
(ses.fittedvalues and ses.forecast(1)[0]; rf.predict(X) and
rf.predict([[len(y)]])[0]; likewise for xgboost).  The fits are external
library calls, out of scope per the spec, hence parameters of the model. -/
structure MLConfig where
  HAS_SES : Bool
  HAS_RF : Bool
  HAS_XGB : Bool
  sesModel : List ℚ → List ℚ × ℚ
  rfModel : List ℚ → List ℚ × ℚ
  xgbModel : List ℚ → List ℚ × ℚ

/-- Builds one results entry (name, forecast, MAPE) from a fit oracle,
as each of the three if-blocks of run_forecast does. -/
def mkRow (name : String) (fit : List ℚ → List ℚ × ℚ) (y : List ℚ) : ForecastRow :=
  ⟨name, (fit y).2, sk_mape y (fit y).1⟩

/-- Embeds line 109 of src/app.py: best = df.sort_values(MAPE).iloc[0].
Pandas sort_values on a three-row frame is a stable sort on the MAPE
column (numpy introsort degenerates to insertion sort, which is stable,
below 16 elements), modelled by the stable mergeSort; iloc[0] is head?,
and on an empty frame it raises IndexError (the `none` case at the use
site). -/
def bestRow (rs : List ForecastRow) : Option ForecastRow :=
  (rs.mergeSort (fun a b => decide (a.mape ≤ b.mape))).head?

/-- Embeds run_forecast (lines 80-110 of src/app.py).  Each available
strategy appends one results entry, in the fixed order SES, RandomForest,
XGBoost; there is no check on the length of the series.  The function
mean_absolute_percentage_error is a name imported by the sklearn
try-block, so when sklearn failed to load (HAS_RF false) the SES and
XGBoost branches raise NameError at their MAPE line.  An empty results
frame makes iloc[0] raise IndexError. -/
def run_forecast (cfg : MLConfig) (y : List ℚ) :
    Except PyErr (List ForecastRow × ForecastRow) :=
  if cfg.HAS_SES && !cfg.HAS_RF then .error .nameError
  else if cfg.HAS_XGB && !cfg.HAS_RF then .error .nameError
  else
    let r1 := if cfg.HAS_SES then [mkRow "SES" cfg.sesModel y] else []
    let r2 := if cfg.HAS_RF then [mkRow "RandomForest" cfg.rfModel y] else []
    let r3 := if cfg.HAS_XGB then [mkRow "XGBoost" cfg.xgbModel y] else []
    let results := r1 ++ r2 ++ r3
    match bestRow results with
    | none => .error .indexError
    | some b => .ok (results, b)

/-- One row of the inventory page table (lines 167-172 of src/app.py).
The safety stock column is `Option ℝ` because pandas std of a
single-point series is NaN (`none`). -/
structure InvRow where
  product : String
  safety : Option ℝ
  endInv : ℚ
  turns : ℚ

/-- One row of the scenarios page table (lines 193-199 of src/app.py). -/
structure ScenRow where
  product : String
  label : String
  demand : ℚ
  service : ℚ
  value : ℚ
deriving DecidableEq, Repr

/-- One row of the portfolio page table (lines 217-222 of src/app.py). -/
structure PortRow where
  product : String
  annual : ℚ
  util : ℚ
  value : ℚ
deriving DecidableEq, Repr

/-- Builds the inventory row of one product (lines 159-172 of src/app.py). -/
noncomputable def invRow (p : Product) (qtys : List ℚ) : InvRow :=
  { product := p.product_code
    safety := (safetyStock qtys).map pyRound1R
    endInv := pyRound1 (endingInventory p qtys)
    turns := pyRound2 (inventoryTurns p qtys) }

/-- Builds the three scenario rows of one product (lines 187-199 of
src/app.py): multipliers Base 1, +10% 1.1, -10% 0.9 applied to the mean
demand; service = min(capacity / demand, 1); value = cost * opening. -/
def scenRowsFor (p : Product) (qtys : List ℚ) : List ScenRow :=
  [("Base", (1 : ℚ)), ("+10%", 1.1), ("-10%", 0.9)].map (fun lf =>
    let demand := mean qtys * lf.2
    { product := p.product_code
      label := lf.1
      demand := pyRound1 demand
      service := pyRound1 (min (p.monthly_capacity / demand) 1 * 100)
      value := pyRound1 (p.unit_cost * p.opening_inventory) })

/-- Builds the portfolio row of one product (lines 214-222 of src/app.py):
annual = sum of quantities, util = annual / (capacity * 12). -/
def portRow (p : Product) (qtys : List ℚ) : PortRow :=
  let annual := qtys.sum
  let util := annual / (p.monthly_capacity * 12)
  ⟨p.product_code, annual, pyRound1 (util * 100), inventoryValue p⟩

/-- The per-product loop shared by the inventory, scenarios and portfolio
pages: for each product, load its history, skip the product when the
history is empty (hist.empty / continue), otherwise append the rows the
page builds from the quantity series. -/
def kpiLoop {β : Type} (db : DB) (f : Product → List ℚ → List β) :
    List Product → List β
  | [] => []
  | p :: ps =>
    let hist := load_history db p.product_code
    if hist.isEmpty then kpiLoop db f ps
    else f p (hist.map (fun r => r.qty)) ++ kpiLoop db f ps

/-- All rows of the inventory page (lines 153-172 of src/app.py). -/
noncomputable def inventoryRows (db : DB) : List InvRow :=
  kpiLoop db (fun p q => [invRow p q]) (load_products db)

/-- All rows of the scenarios page (lines 181-199 of src/app.py). -/
def scenRowsAll (db : DB) : List ScenRow :=
  kpiLoop db scenRowsFor (load_products db)

/-- All rows of the portfolio page (lines 208-222 of src/app.py). -/
def portRowsAll (db : DB) : List PortRow :=
  kpiLoop db (fun p q => [portRow p q]) (load_products db)

/-- The rendered page contents, one constructor per distinct return of
render_page.  `welcome` is the final fallback html.H2 Welcome to IBP;
`uploadPrompt` is the html.P Upload historical sales first;
`approvalDenied` is the html.P Only managers can approve plans. -/
inductive View where
  | productsView (rows : List Product)
  | uploadPrompt
  | forecastView (metrics : List ForecastRow) (best : ForecastRow)
  | inventoryView (rows : List InvRow)
  | scenView (rows : List ScenRow)
  | portView (rows : List PortRow)
  | approvalDenied
  | approvalView
  | welcome

/-- Process configuration: the ML availability flags and fit oracles, and
the ROLE environment flag read at startup (planner / manager). -/
structure Config where
  ml : MLConfig
  ROLE : String

/-- The body of the forecast page once the first product is fixed
(lines 134-149 of src/app.py): empty history shows the upload prompt,
otherwise run_forecast is applied to the qty series of that history and
its metrics table and best row are rendered. -/
def forecastBranch (ml : MLConfig) (hist : List SalesRecord) : Except PyErr View :=
  if hist.isEmpty then .ok .uploadPrompt
  else
    match run_forecast ml (hist.map (fun r => r.qty)) with
    | .error e => .error e
    | .ok mb => .ok (.forecastView mb.1 mb.2)

/-- Embeds render_page (lines 116-241 of src/app.py).  The path is
matched by a chain of string equalities; products are loaded first.  The
forecast page takes products.iloc[0] (IndexError on an empty product
table).  The inventory, scenarios and portfolio pages build their row
lists and then evaluate rows[0] for the DataTable columns, an IndexError
when the row list is empty.  The approved store is received as State but
never read.  The fallback of the chain returns the welcome view. -/
noncomputable def render_page (cfg : Config) (path : String) (approved : Bool)
    (db : DB) : Except PyErr View :=
  let products := load_products db
  if path = "/products" then .ok (.productsView products)
  else if path = "/forecast" then
    match products with
    | [] => .error .indexError
    | p :: _ => forecastBranch cfg.ml (load_history db p.product_code)
  else if path = "/inventory" then
    match inventoryRows db with
    | [] => .error .indexError
    | r :: rs => .ok (.inventoryView (r :: rs))
  else if path = "/scenarios" then
    match scenRowsAll db with
    | [] => .error .indexError
    | r :: rs => .ok (.scenView (r :: rs))
  else if path = "/portfolio" then
    match portRowsAll db with
    | [] => .error .indexError
    | r :: rs => .ok (.portView (r :: rs))
  else if path = "/approval" then
    if cfg.ROLE ≠ "manager" then .ok .approvalDenied else .ok .approvalView
  else .ok .welcome

/-- The six paths the routing chain of render_page matches explicitly. -/
def definedRoutes : List String :=
  ["/products", "/forecast", "/inventory", "/scenarios", "/portfolio", "/approval"]

/-! General facts about the head of a stable sort: it belongs to the list, it
is minimal for the sort key, and it is the first element of the original list
attaining that minimum. -/

theorem head_mergeSort_mem_min {α : Type} {le : α → α → Bool}
    (htrans : ∀ a b c : α, le a b → le b c → le a c)
    (htotal : ∀ a b : α, le a b || le b a)
    {l : List α} {b : α} (h : (l.mergeSort le).head? = some b) :
    b ∈ l ∧ ∀ y ∈ l, le b y = true := by
  cases hm : l.mergeSort le with
  | nil => rw [hm] at h; cases h
  | cons x t =>
    rw [hm, List.head?_cons] at h
    have hxb : x = b := by injection h
    subst hxb
    have hbl : x ∈ l := List.mem_mergeSort.mp (by rw [hm]; exact List.mem_cons_self x t)
    have hpw : (l.mergeSort le).Pairwise (fun a c => le a c) :=
      List.sorted_mergeSort htrans htotal l
    rw [hm, List.pairwise_cons] at hpw
    refine ⟨hbl, fun y hy => ?_⟩
    have hym : y ∈ l.mergeSort le := List.mem_mergeSort.mpr hy
    rw [hm] at hym
    rcases List.mem_cons.mp hym with hyb | hyt
    · subst hyb
      have := htotal y y
      revert this
      cases le y y <;> simp
    · exact hpw.1 y hyt

theorem head_mergeSort_find {α : Type} {le : α → α → Bool}
    (htrans : ∀ a b c : α, le a b → le b c → le a c)
    (htotal : ∀ a b : α, le a b || le b a) :
    ∀ (l : List α) (b : α), (l.mergeSort le).head? = some b →
      l.find? (fun y => le y b) = some b
  | [], b, h => by rw [List.mergeSort_nil] at h; cases h
  | a :: t, b, h => by
    obtain ⟨l₁, l₂, h₁, h₂, h₃⟩ := List.mergeSort_cons htrans htotal a t
    cases hl₁ : l₁ with
    | nil =>
      rw [hl₁] at h₁
      rw [h₁, List.nil_append, List.head?_cons] at h
      have hab : a = b := by injection h
      subst hab
      have haa : le a a = true := by
        have := htotal a a
        revert this
        cases le a a <;> simp
      exact List.find?_cons_of_pos t haa
    | cons c l₁t =>
      rw [hl₁] at h₁ h₃
      rw [h₁, List.cons_append, List.head?_cons] at h
      have hcb : c = b := by injection h
      subst hcb
      have hab : le a c = false := by
        have := h₃ c (List.mem_cons_self c l₁t)
        revert this
        cases le a c <;> simp
      have hrec : t.find? (fun y => le y c) = some c := by
        apply head_mergeSort_find htrans htotal t c
        rw [hl₁, List.cons_append] at h₂
        rw [h₂, List.head?_cons]
      have hstep : List.find? (fun y => le y c) (a :: t) =
          List.find? (fun y => le y c) t :=
        List.find?_cons_of_neg t (by simp [hab])
      rw [hstep, hrec]

theorem mapeLe_trans (a b c : ForecastRow)
    (h1 : decide (a.mape ≤ b.mape) = true) (h2 : decide (b.mape ≤ c.mape) = true) :
    decide (a.mape ≤ c.mape) = true := by
  simp only [decide_eq_true_eq] at h1 h2 ⊢
  exact le_trans h1 h2

theorem mapeLe_total (a b : ForecastRow) :
    (decide (a.mape ≤ b.mape) || decide (b.mape ≤ a.mape)) = true := by
  simp only [Bool.or_eq_true, decide_eq_true_eq]
  exact le_total a.mape b.mape

theorem codeLe_trans (a b c : Product)
    (h1 : decide (a.product_code ≤ b.product_code) = true)
    (h2 : decide (b.product_code ≤ c.product_code) = true) :
    decide (a.product_code ≤ c.product_code) = true := by
  simp only [decide_eq_true_eq] at h1 h2 ⊢
  exact le_trans h1 h2

theorem codeLe_total (a b : Product) :
    (decide (a.product_code ≤ b.product_code) ||
      decide (b.product_code ≤ a.product_code)) = true := by
  simp only [Bool.or_eq_true, decide_eq_true_eq]
  exact le_total a.product_code b.product_code

/-- With all three libraries available, run_forecast returns the results
frame with one entry per strategy, in the fixed order SES, RandomForest,
XGBoost, and its best row is the head of the stable sort of that frame. -/
theorem run_forecast_ok (cfg : MLConfig) (y : List ℚ)
    (hs : cfg.HAS_SES = true) (hr : cfg.HAS_RF = true) (hx : cfg.HAS_XGB = true) :
    ∃ b,
      run_forecast cfg y =
        .ok ([mkRow "SES" cfg.sesModel y, mkRow "RandomForest" cfg.rfModel y,
              mkRow "XGBoost" cfg.xgbModel y], b) ∧
      bestRow [mkRow "SES" cfg.sesModel y, mkRow "RandomForest" cfg.rfModel y,
              mkRow "XGBoost" cfg.xgbModel y] = some b := by
  cases hm : ([mkRow "SES" cfg.sesModel y, mkRow "RandomForest" cfg.rfModel y,
      mkRow "XGBoost" cfg.xgbModel y].mergeSort
        (fun a b => decide (a.mape ≤ b.mape))) with
  | nil =>
    have h3 : ([mkRow "SES" cfg.sesModel y, mkRow "RandomForest" cfg.rfModel y,
        mkRow "XGBoost" cfg.xgbModel y].mergeSort
          (fun a b => decide (a.mape ≤ b.mape))).length = 0 := by
      rw [hm]; rfl
    simp at h3
  | cons c t =>
    refine ⟨c, ?_, ?_⟩
    · simp [run_forecast, hs, hr, hx, bestRow, hm]
    · simp [bestRow, hm]

/-! Concrete fixtures used by witnesses and counterexamples. -/

/-- A concrete stand-in for an external fit: the fitted values are the series
itself and the forecast is 0. -/
def constModel : List ℚ → List ℚ × ℚ := fun y => (y, 0)

/-- A configuration in which all three libraries loaded. -/
def cfgAll : MLConfig := ⟨true, true, true, constModel, constModel, constModel⟩

/-- A full process configuration with the default planner role. -/
def cfgPlanner : Config := ⟨cfgAll, "planner"⟩

/-- The product of the spec example: code A1, opening 100, capacity 50,
cost 2.0. -/
def prodA1 : Product := ⟨"A1", "Widget", 100, 50, 2⟩

/-- The quantity history of the spec example. -/
def histA1 : List ℚ := [40, 50, 60]

/-- A product with zero opening inventory. -/
def prodZero : Product := ⟨"Z0", "Zero", 0, 50, 2⟩

/-- A database with one product and no sales history at all. -/
def dbNoHist : DB := ⟨[prodA1], []⟩

/-- A database with an empty product table. -/
def dbEmpty : DB := ⟨[], []⟩

/-- C1: run_forecast, applied to a non-empty quantity series with every
strategy available, produces one results entry per strategy (SES,
RandomForest, XGBoost, in that fixed order) and selects the entry with
the lowest MAPE; the tie-break is deterministic and stable: the selected
entry is the first of the results frame whose MAPE attains the minimum,
so equal-MAPE ties resolve by the fixed strategy order. -/
theorem C1_run_forecast_selects_lowest_mape (cfg : MLConfig) (y : List ℚ)
    (hs : cfg.HAS_SES = true) (hr : cfg.HAS_RF = true) (hx : cfg.HAS_XGB = true)
    (hy : y ≠ []) :
    ∃ results best,
      run_forecast cfg y = .ok (results, best) ∧
      results.map (fun r => r.model) = ["SES", "RandomForest", "XGBoost"] ∧
      best ∈ results ∧
      (∀ r ∈ results, best.mape ≤ r.mape) ∧
      results.find? (fun r => decide (r.mape ≤ best.mape)) = some best := by
  obtain ⟨b, hok, hbest⟩ := run_forecast_ok cfg y hs hr hx
  have hb2 : ([mkRow "SES" cfg.sesModel y, mkRow "RandomForest" cfg.rfModel y,
      mkRow "XGBoost" cfg.xgbModel y].mergeSort
        (fun a b => decide (a.mape ≤ b.mape))).head? = some b := hbest
  have hmm := head_mergeSort_mem_min mapeLe_trans mapeLe_total hb2
  have hfind := head_mergeSort_find mapeLe_trans mapeLe_total
    [mkRow "SES" cfg.sesModel y, mkRow "RandomForest" cfg.rfModel y,
      mkRow "XGBoost" cfg.xgbModel y] b hb2
  refine ⟨_, b, hok, by simp [mkRow], hmm.1, ?_, hfind⟩
  intro r hrm
  have := hmm.2 r hrm
  simpa using this

/-- Witness for C1 at the concrete configuration cfgAll and the series
[40, 50]. -/
theorem C1_witness :
    cfgAll.HAS_SES = true ∧ cfgAll.HAS_RF = true ∧ cfgAll.HAS_XGB = true ∧
    ([40, 50] : List ℚ) ≠ [] ∧
    (∃ results best,
      run_forecast cfgAll [40, 50] = .ok (results, best) ∧
      results.map (fun r => r.model) = ["SES", "RandomForest", "XGBoost"] ∧
      best ∈ results ∧
      (∀ r ∈ results, best.mape ≤ r.mape) ∧
      results.find? (fun r => decide (r.mape ≤ best.mape)) = some best) :=
  ⟨rfl, rfl, rfl, by decide,
    C1_run_forecast_selects_lowest_mape cfgAll [40, 50] rfl rfl rfl (by decide)⟩

/-- C2: for the product with code A1, opening inventory 100, monthly
capacity 50 and unit cost 2.0, with quantity history [40, 50, 60], the
KPI computation yields average demand 50, ending inventory 100,
inventory turns 6.0 and inventory value 200.0. -/
theorem C2_kpi_example :
    mean histA1 = 50 ∧ endingInventory prodA1 histA1 = 100 ∧
    inventoryTurns prodA1 histA1 = 6 ∧ inventoryValue prodA1 = 200 := by
  have hmean : mean histA1 = 50 := by norm_num [mean, histA1]
  have hmax : max (100 : ℚ) 1 = 100 := max_eq_left (by norm_num)
  refine ⟨hmean, ?_, ?_, ?_⟩
  · rw [endingInventory, hmean]
    norm_num [prodA1, min_self]
  · rw [inventoryTurns, hmean]
    simp only [prodA1]
    rw [hmax]
    norm_num
  · norm_num [inventoryValue, prodA1]

/-- C3 counterexample: on the non-empty series [5] the pandas sample
standard deviation (ddof = 1) is NaN, so safety stock is NaN (none)
rather than a number greater than or equal to 0. -/
theorem C3_counterexample :
    ([(5 : ℚ)] ≠ ([] : List ℚ)) ∧ safetyStock [(5 : ℚ)] = none ∧
    ¬ ∃ s : ℝ, safetyStock [(5 : ℚ)] = some s ∧ 0 ≤ s := by
  have hnone : safetyStock [(5 : ℚ)] = none := by
    simp [safetyStock, sampleStd, sampleVar]
  refine ⟨by decide, hnone, ?_⟩
  rintro ⟨s, hsome, -⟩
  rw [hnone] at hsome
  cases hsome

/-- C3 amended: for every quantity series of length at least 2 the
computed safety stock (sample standard deviation of the quantities times
1.65) is a number greater than or equal to 0 (for a length-1 series the
sample standard deviation is NaN); and the computed average demand
equals the arithmetic mean of every non-empty series. -/
theorem C3_amended_safety_nonneg (l : List ℚ) :
    (2 ≤ l.length → ∃ s : ℝ, safetyStock l = some s ∧ 0 ≤ s) ∧
    (l ≠ [] → mean l = specArithmeticMean l) := by
  constructor
  · intro h2
    have hcond : ¬ (l.length ≤ 1) := by omega
    refine ⟨Real.sqrt
      ((((l.map (fun x => (x - mean l) ^ 2)).sum) / ((l.length : ℚ) - 1) : ℚ)) * 1.65,
      ?_, ?_⟩
    · rw [safetyStock, sampleStd, sampleVar, if_neg hcond]
      rfl
    · exact mul_nonneg (Real.sqrt_nonneg _) (by norm_num)
  · intro _
    rfl

/-- Witness for C3 amended at the concrete series [40, 50, 60]. -/
theorem C3_witness :
    2 ≤ histA1.length ∧ (∃ s : ℝ, safetyStock histA1 = some s ∧ 0 ≤ s) ∧
    mean histA1 = specArithmeticMean histA1 :=
  ⟨by decide, (C3_amended_safety_nonneg histA1).1 (by decide),
    (C3_amended_safety_nonneg histA1).2 (by decide)⟩

/-- C5: for every product with zero opening inventory and a non-empty
history, the inventory turns computation raises no division error: the
denominator max(opening, 1) is 1, and turns evaluates to the average
demand times 12. -/
theorem C5_zero_opening_no_div_error (p : Product) (qtys : List ℚ)
    (h0 : p.opening_inventory = 0) (hne : qtys ≠ []) :
    inventoryTurnsE p qtys = .ok (inventoryTurns p qtys) ∧
    inventoryTurns p qtys = mean qtys * 12 := by
  have hmax : max p.opening_inventory 1 = 1 := by
    rw [h0]
    exact max_eq_right (by norm_num)
  have hturns : inventoryTurns p qtys = mean qtys * 12 := by
    simp only [inventoryTurns, hmax, div_one]
  refine ⟨?_, hturns⟩
  simp only [inventoryTurnsE, divE, hmax, hturns, div_one]
  norm_num

/-- Witness for C5 at the concrete zero-opening product and series [40]. -/
theorem C5_witness :
    prodZero.opening_inventory = 0 ∧ ([40] : List ℚ) ≠ [] ∧
    inventoryTurnsE prodZero [40] = .ok (inventoryTurns prodZero [40]) ∧
    inventoryTurns prodZero [40] = mean [40] * 12 := by
  refine ⟨rfl, by decide, ?_, ?_⟩
  · exact (C5_zero_opening_no_div_error prodZero [40] rfl (by decide)).1
  · exact (C5_zero_opening_no_div_error prodZero [40] rfl (by decide)).2

/-- C6 counterexample: on the length-1 series [5], with every library
available, the regression strategies are not skipped: the results frame
contains a RandomForest entry and an XGBoost entry (run_forecast has no
length check), refuting the claim that they produce no result entry. -/
theorem C6_counterexample :
    ([(5 : ℚ)].length = 1) ∧
    run_forecast cfgAll [5] =
      .ok ([⟨"SES", 0, 0⟩, ⟨"RandomForest", 0, 0⟩, ⟨"XGBoost", 0, 0⟩],
           ⟨"SES", 0, 0⟩) := by
  have hmape : sk_mape [5] [5] = 0 := by
    norm_num [sk_mape, mean]
  have hrow : ∀ name, mkRow name constModel [5] = ⟨name, 0, 0⟩ := by
    intro name
    simp [mkRow, constModel, hmape]
  have hpw : List.Pairwise
      (fun a b : ForecastRow => decide (a.mape ≤ b.mape) = true)
      [⟨"SES", 0, 0⟩, ⟨"RandomForest", 0, 0⟩, ⟨"XGBoost", 0, 0⟩] := by
    simp [List.pairwise_cons]
  have hms : ([⟨"SES", 0, 0⟩, ⟨"RandomForest", 0, 0⟩,
      ⟨"XGBoost", 0, 0⟩] : List ForecastRow).mergeSort
        (fun a b => decide (a.mape ≤ b.mape)) =
      [⟨"SES", 0, 0⟩, ⟨"RandomForest", 0, 0⟩, ⟨"XGBoost", 0, 0⟩] :=
    List.mergeSort_of_sorted hpw
  refine ⟨rfl, ?_⟩
  simp [run_forecast, cfgAll, hrow, bestRow, hms]

/-- C6 amended: run_forecast applies no length-based guard, so on a
series of length exactly 1, with every library available, each of the
three strategies (exponential smoothing and both regression strategies)
produces exactly one result entry; none is skipped. -/
theorem C6_amended_all_strategies_entry (cfg : MLConfig) (q : ℚ)
    (hs : cfg.HAS_SES = true) (hr : cfg.HAS_RF = true) (hx : cfg.HAS_XGB = true) :
    ∃ results best, run_forecast cfg [q] = .ok (results, best) ∧
      results.map (fun r => r.model) = ["SES", "RandomForest", "XGBoost"] := by
  obtain ⟨b, hok, -⟩ := run_forecast_ok cfg [q] hs hr hx
  exact ⟨_, b, hok, by simp [mkRow]⟩

/-- Witness for C6 amended at the concrete configuration and series [5]. -/
theorem C6_witness :
    cfgAll.HAS_SES = true ∧ cfgAll.HAS_RF = true ∧ cfgAll.HAS_XGB = true ∧
    (∃ results best, run_forecast cfgAll [(5 : ℚ)] = .ok (results, best) ∧
      results.map (fun r => r.model) = ["SES", "RandomForest", "XGBoost"]) :=
  ⟨rfl, rfl, rfl, C6_amended_all_strategies_entry cfgAll 5 rfl rfl rfl⟩

/-- C4: when every product has an empty sales history, the inventory,
scenarios and portfolio pages do not return a view: the rows list is
empty and evaluating rows[0] for the DataTable columns raises
IndexError, which escapes render_page.  This theorem evaluates the code
at that failing input. -/
theorem C4_empty_history_pages_raise :
    render_page cfgPlanner "/inventory" false dbNoHist = .error .indexError ∧
    render_page cfgPlanner "/scenarios" false dbNoHist = .error .indexError ∧
    render_page cfgPlanner "/portfolio" false dbNoHist = .error .indexError := by
  have hlp : load_products dbNoHist = [prodA1] := by
    simp [load_products, dbNoHist]
  have hlh : load_history dbNoHist "A1" = [] := by
    simp [load_history, dbNoHist]
  have hinv : inventoryRows dbNoHist = [] := by
    simp [inventoryRows, hlp, kpiLoop, prodA1, hlh]
  have hscen : scenRowsAll dbNoHist = [] := by
    simp [scenRowsAll, hlp, kpiLoop, prodA1, hlh]
  have hport : portRowsAll dbNoHist = [] := by
    simp [portRowsAll, hlp, kpiLoop, prodA1, hlh]
  refine ⟨?_, ?_, ?_⟩ <;> simp [render_page, hinv, hscen, hport]

/-- C7 counterexample: for the concrete unmatched path /missing-page the
router returns the welcome home view, the same view it returns for the
root path, not a dedicated NotFound view (the embedded View type, read
off from render_page, has no NotFound constructor at all). -/
theorem C7_counterexample :
    render_page cfgPlanner "/missing-page" false dbNoHist = .ok .welcome ∧
    render_page cfgPlanner "/" false dbNoHist = .ok .welcome := by
  constructor <;> simp [render_page]

/-- C7 amended: applied to any path that matches none of the defined
routes, render_page returns the welcome home view (the fallback of the
routing chain, also used for the root path) and never raises. -/
theorem C7_amended_unmatched_returns_welcome (cfg : Config) (approved : Bool)
    (db : DB) (path : String) (hp : path ∉ definedRoutes) :
    render_page cfg path approved db = .ok .welcome := by
  simp only [definedRoutes, List.mem_cons, List.not_mem_nil, or_false, not_or] at hp
  obtain ⟨h1, h2, h3, h4, h5, h6⟩ := hp
  simp only [render_page]
  rw [if_neg h1, if_neg h2, if_neg h3, if_neg h4, if_neg h5, if_neg h6]

/-- Witness for C7 amended at the concrete path /nothing-here. -/
theorem C7_witness :
    ("/nothing-here" ∉ definedRoutes) ∧
    render_page cfgPlanner "/nothing-here" false dbNoHist = .ok .welcome :=
  ⟨by decide, C7_amended_unmatched_returns_welcome cfgPlanner false dbNoHist
    "/nothing-here" (by decide)⟩

/-- Modelled from the spec: the unscaled KPI service_level of section 4.4,
min(monthly_capacity / demand, 1) with demand the average demand,
expressed as a fraction before the percentage display.  src/app.py
computes a service level only inside the scenarios page, so the unscaled
formula is written here from the words of the spec for comparison. -/
def serviceLevelSpec (p : Product) (qtys : List ℚ) : ℚ :=
  min (p.monthly_capacity / mean qtys) 1

/-- C8: for every product with non-empty history, the scenario row with
multiplier 1.0 (label Base) is the first row the scenarios page builds
for that product, and its service level equals the unscaled KPI service
level min(capacity / average demand, 1) expressed as a rounded
percentage. -/
theorem C8_base_scenario_service (p : Product) (qtys : List ℚ)
    (hne : qtys ≠ []) :
    ∃ r, (scenRowsFor p qtys).head? = some r ∧ r.label = "Base" ∧
      r.service = pyRound1 (serviceLevelSpec p qtys * 100) := by
  refine ⟨{ product := p.product_code, label := "Base",
            demand := pyRound1 (mean qtys * 1),
            service := pyRound1 (min (p.monthly_capacity / (mean qtys * 1)) 1 * 100),
            value := pyRound1 (p.unit_cost * p.opening_inventory) }, ?_, rfl, ?_⟩
  · simp [scenRowsFor]
  · simp only [serviceLevelSpec, mul_one]

/-- Witness for C8 at the concrete product A1 and history [40, 50, 60]. -/
theorem C8_witness :
    histA1 ≠ [] ∧
    (∃ r, (scenRowsFor prodA1 histA1).head? = some r ∧ r.label = "Base" ∧
      r.service = pyRound1 (serviceLevelSpec prodA1 histA1 * 100)) :=
  ⟨by decide, C8_base_scenario_service prodA1 histA1 (by decide)⟩

/-- C9: render_page never reads the approved store: for every
configuration, path and database, rendering with approved = true and
approved = false returns the same result, so approving or rejecting a
plan changes no rendered page. -/
theorem C9_approved_independent (cfg : Config) (path : String) (db : DB) :
    render_page cfg path true db = render_page cfg path false db := rfl

/-- C10: the forecast page computes its forecast from the history of the
first product in code order only (the row render_page takes with
iloc[0], whose product_code is minimal among all products), and with an
empty product table iloc[0] raises IndexError instead of returning a
view. -/
theorem C10_forecast_first_product_only (cfg : Config) (approved : Bool)
    (db : DB) :
    (load_products db = [] →
      render_page cfg "/forecast" approved db = .error .indexError) ∧
    (∀ p ps, load_products db = p :: ps →
      render_page cfg "/forecast" approved db =
        forecastBranch cfg.ml (load_history db p.product_code) ∧
      ∀ q ∈ db.products, p.product_code ≤ q.product_code) := by
  constructor
  · intro h
    simp [render_page, h]
  · intro p ps h
    constructor
    · simp [render_page, h]
    · intro q hq
      have hms : (db.products.mergeSort
          (fun a b => decide (a.product_code ≤ b.product_code))) = p :: ps := h
      have hhead : ((db.products).mergeSort
          (fun a b => decide (a.product_code ≤ b.product_code))).head? = some p := by
        rw [hms]
        rfl
      have := (head_mergeSort_mem_min codeLe_trans codeLe_total hhead).2 q hq
      simpa using this

/-- Witness for C10 at a database with an empty product table and a
database with the single product A1. -/
theorem C10_witness :
    (load_products dbEmpty = [] ∧
      render_page cfgPlanner "/forecast" false dbEmpty = .error .indexError) ∧
    (load_products dbNoHist = [prodA1] ∧
      render_page cfgPlanner "/forecast" false dbNoHist =
        forecastBranch cfgPlanner.ml (load_history dbNoHist prodA1.product_code) ∧
      ∀ q ∈ dbNoHist.products, prodA1.product_code ≤ q.product_code) := by
  have he : load_products dbEmpty = [] := by simp [load_products, dbEmpty]
  have hn : load_products dbNoHist = [prodA1] := by simp [load_products, dbNoHist]
  refine ⟨⟨he, (C10_forecast_first_product_only cfgPlanner false dbEmpty).1 he⟩,
    hn, ?_, ?_⟩
  · exact ((C10_forecast_first_product_only cfgPlanner false dbNoHist).2
      prodA1 [] hn).1
  · exact ((C10_forecast_first_product_only cfgPlanner false dbNoHist).2
      prodA1 [] hn).2

end IBP
